import Mathlib

/-!
Shallow embedding of the marketplace repository's data/authorization core:
the SQL schema, row-level security policies and signup trigger from the
migration file, together with the client handlers from `Dashboard.tsx`,
`AddProductDialog` and `ProductCard.tsx`.  Identity ids (UUIDs) are
modelled as `Nat`; the requesting identity `auth.uid()` is an
`Option Nat` (`none` for an anonymous request, where the SQL comparison
`auth.uid() = col` evaluates to NULL and grants nothing).  `DECIMAL` and
`INTEGER` columns are modelled as `Int` (the `quantity` column has no
check constraint, so negative values are representable).
-/

namespace SourceWeave

/-- The enumerated role type: CREATE TYPE user_role AS ENUM ('buyer', 'seller'). -/
inductive UserRole where
  | buyer
  | seller
deriving DecidableEq, Repr

/-- A row of public.profiles.  Timestamp columns are omitted: no claim
mentions them.  `full_name` and `email` are nullable TEXT columns. -/
structure Profile where
  id : Nat
  email : Option String
  full_name : Option String
  role : UserRole
deriving DecidableEq, Repr

/-- A row of public.products.  `price` is DECIMAL(10,2), modelled in
hundredths; `quantity` is INTEGER with no check constraint. -/
structure Product where
  id : Nat
  seller_id : Nat
  name : String
  description : Option String
  price : Int
  quantity : Int
  category_id : Option Nat
  image_url : Option String
  is_active : Bool
deriving DecidableEq, Repr

/-- The set of strings accepted by the SQL cast text::user_role. -/
def parseUserRole (s : String) : Option UserRole :=
  if s = "buyer" then some UserRole.buyer
  else if s = "seller" then some UserRole.seller
  else none

/-- The SQL cast (text)::user_role applied to a nullable text value:
NULL casts to NULL, a non-matching string raises error 22P02 (which
aborts the surrounding transaction).  COALESCE does not catch it. -/
def castUserRole : Option String → Except String (Option UserRole)
  | none => Except.ok none
  | some s =>
    match parseUserRole s with
    | some r => Except.ok (some r)
    | none => Except.error "invalid input value for enum user_role"

/-- The signup metadata (raw_user_meta_data) fields the trigger reads:
the ->> operator yields NULL for an absent key, hence `Option`. -/
structure SignupMetadata where
  full_name : Option String
  role : Option String
deriving DecidableEq, Repr

/-- A new auth.users row as seen by the AFTER INSERT trigger. -/
structure NewUser where
  id : Nat
  email : Option String
  raw_user_meta_data : SignupMetadata
deriving DecidableEq, Repr

/-- Body of public.handle_new_user: inserts one profiles row with
full_name = COALESCE(meta ->> 'full_name', '') and
role = COALESCE((meta ->> 'role')::user_role, 'buyer').  A failing
cast propagates as an error. -/
def handle_new_user (new : NewUser) : Except String Profile :=
  match castUserRole new.raw_user_meta_data.role with
  | Except.error e => Except.error e
  | Except.ok r =>
    Except.ok
      { id := new.id
      , email := new.email
      , full_name := some (new.raw_user_meta_data.full_name.getD "")
      , role := r.getD UserRole.buyer }

/-- The auth store plus the profiles table. -/
structure DB where
  users : List NewUser
  profiles : List Profile
deriving DecidableEq, Repr

/-- The identity-creation event: INSERT INTO auth.users fires the
on_auth_user_created trigger inside the same transaction; a trigger
error makes the whole statement fail. -/
def signup (db : DB) (u : NewUser) : Except String DB :=
  match handle_new_user u with
  | Except.error e => Except.error e
  | Except.ok p =>
    Except.ok { users := db.users ++ [u], profiles := db.profiles ++ [p] }

/-- Transaction semantics: an aborted signup leaves the database
unchanged (the identity insert is rolled back with the profile insert). -/
def signupApply (db : DB) (u : NewUser) : DB :=
  match signup db u with
  | Except.ok db2 => db2
  | Except.error _ => db

/-- Statement-level transaction semantics for a single table: a
statement that raises leaves the table as it was. -/
def txApply {α : Type} (table : List α) : Except String (List α) → List α
  | Except.ok t => t
  | Except.error _ => table

/-! RLS policies for public.profiles. -/

/-- USING / WITH CHECK clause shared by the three profiles policies:
auth.uid() = id. -/
def profilesOwnerPolicy (uid : Option Nat) (p : Profile) : Bool :=
  uid == some p.id

/-- SELECT on profiles under policy "Users can view their own profile":
rows failing the USING clause are silently filtered out. -/
def profilesSelect (uid : Option Nat) (table : List Profile) : List Profile :=
  table.filter (profilesOwnerPolicy uid)

/-- UPDATE on profiles under policy "Users can update their own
profile": rows failing USING are skipped; an updated row failing the
implied WITH CHECK aborts the statement. -/
def profilesUpdate (uid : Option Nat) (table : List Profile)
    (cond : Profile → Bool) (f : Profile → Profile) :
    Except String (List Profile) :=
  if table.all (fun p =>
      !(cond p && profilesOwnerPolicy uid p) || profilesOwnerPolicy uid (f p)) then
    Except.ok (table.map (fun p =>
      if cond p && profilesOwnerPolicy uid p then f p else p))
  else Except.error "new row violates row-level security policy for table profiles"

/-- INSERT on profiles under policy "Users can insert their own
profile": a new row failing WITH CHECK raises. -/
def profilesInsert (uid : Option Nat) (table : List Profile) (p : Profile) :
    Except String (List Profile) :=
  if profilesOwnerPolicy uid p then Except.ok (table ++ [p])
  else Except.error "new row violates row-level security policy for table profiles"

/-! RLS policies for public.products. -/

/-- USING clause of policy "Anyone can view active products". -/
def productsActivePolicy (p : Product) : Bool :=
  p.is_active

/-- USING clause of the FOR ALL policy "Sellers can manage their own
products": auth.uid() = seller_id. -/
def productsOwnerPolicy (uid : Option Nat) (p : Product) : Bool :=
  uid == some p.seller_id

/-- SELECT visibility on products: permissive policies are ORed, and
the FOR ALL policy also applies to SELECT. -/
def productsSelectAllowed (uid : Option Nat) (p : Product) : Bool :=
  productsActivePolicy p || productsOwnerPolicy uid p

/-- SELECT on products: rows failing every applicable USING clause are
silently filtered out. -/
def productsSelect (uid : Option Nat) (table : List Product) : List Product :=
  table.filter (productsSelectAllowed uid)

/-- UPDATE on products: only the FOR ALL owner policy applies to
mutation; rows failing USING are silently skipped, an updated row
failing the implied WITH CHECK aborts the statement. -/
def productsUpdate (uid : Option Nat) (table : List Product)
    (cond : Product → Bool) (f : Product → Product) :
    Except String (List Product) :=
  if table.all (fun p =>
      !(cond p && productsOwnerPolicy uid p) || productsOwnerPolicy uid (f p)) then
    Except.ok (table.map (fun p =>
      if cond p && productsOwnerPolicy uid p then f p else p))
  else Except.error "new row violates row-level security policy for table products"

/-- INSERT on products: the new row must pass the owner policy's
implied WITH CHECK, else the statement raises. -/
def productsInsert (uid : Option Nat) (table : List Product) (p : Product) :
    Except String (List Product) :=
  if productsOwnerPolicy uid p then Except.ok (table ++ [p])
  else Except.error "new row violates row-level security policy for table products"

/-- DELETE on products: rows failing the owner policy's USING clause
are silently retained. -/
def productsDelete (uid : Option Nat) (table : List Product)
    (cond : Product → Bool) : List Product :=
  table.filter (fun p => !(cond p && productsOwnerPolicy uid p))

/-! Client handlers.  `Dashboard.tsx` handleAddToCart looks the product
up in the client cache, bails out when it is missing or its cached
quantity is 0, and otherwise issues
update products set quantity = cached - 1 where id = productId. -/

/-- handleAddToCart: returns the quantity value of the issued update
payload, or `none` when no update is issued (product missing from the
cache or cached quantity 0). -/
def handleAddToCart (products : List Product) (productId : Nat) : Option Int :=
  match products.find? (fun p => p.id == productId) with
  | none => none
  | some product =>
    if product.quantity == 0 then none
    else some (product.quantity - 1)

/-- The table-level effect of the issued update statement
(update ... set quantity = q where id = productId), policy checks
aside; a `none` payload means no statement was sent. -/
def addToCartEffect (table : List Product) (productId : Nat) :
    Option Int → List Product
  | none => table
  | some q =>
    table.map (fun p => if p.id == productId then { p with quantity := q } else p)

/-- Two add-to-cart calls issued concurrently against the same table,
in the interleaving where both clients read the product list before
either write lands (the read-then-write sequence is two separate round
trips with no transaction wrapping and no conditional update).  Returns
both update payloads — a `some` payload is a purchase the client
reports as a success — and the final table. -/
def concurrentAddToCart (table : List Product) (productId : Nat) :
    Option Int × Option Int × List Product :=
  let payloadA := handleAddToCart table productId
  let payloadB := handleAddToCart table productId
  (payloadA, payloadB,
    addToCartEffect (addToCartEffect table productId payloadA) productId payloadB)

/-! AddProductDialog: uploadImage and handleSubmit. -/

/-- The add-product form state.  `price` and `quantity` stand for the
already-parsed numeric values of the form fields (parseFloat/parseInt
of the text inputs, performed before the insert); `category_id` is the
raw select value, the empty string when no category was chosen. -/
structure ProductFormData where
  name : String
  description : String
  price : Int
  quantity : Int
  category_id : String
deriving DecidableEq, Repr

/-- The record handed to supabase.from('products').insert(...). -/
structure ProductInsertPayload where
  seller_id : Nat
  name : String
  description : String
  price : Int
  quantity : Int
  category_id : Option String
  image_url : Option String
deriving DecidableEq, Repr

/-- uploadImage: the storage upload either succeeds, yielding the
public URL, or fails; a failure is caught (logged) and turned into
null rather than rethrown. -/
def uploadImage (outcome : Except String String) : Option String :=
  match outcome with
  | Except.ok url => some url
  | Except.error _ => none

/-- handleSubmit: returns early when no user is signed in; runs
uploadImage when an image file was chosen (its network outcome is the
`Except` argument); inserts the product with
category_id mapped to null when the form field is the empty string
(JavaScript `formData.category_id || null`). -/
def handleSubmit (user : Option Nat) (formData : ProductFormData)
    (imageFile : Option (Except String String)) : Option ProductInsertPayload :=
  match user with
  | none => none
  | some uid =>
    let imageUrl : Option String :=
      match imageFile with
      | none => none
      | some outcome => uploadImage outcome
    some
      { seller_id := uid
      , name := formData.name
      , description := formData.description
      , price := formData.price
      , quantity := formData.quantity
      , category_id :=
          if formData.category_id = "" then none else some formData.category_id
      , image_url := imageUrl }

/-! Concrete fixtures used by witnesses and counterexamples. -/

/-- An empty database: no identities, no profiles. -/
def db0 : DB :=
  { users := [], profiles := [] }

/-- A signup with both metadata keys present and a valid role. -/
def sellerSignupUser : NewUser :=
  { id := 5, email := some "a@example.com"
  , raw_user_meta_data := { full_name := some "A", role := some "seller" } }

/-- A signup with no metadata keys at all. -/
def noMetaUser : NewUser :=
  { id := 3, email := none
  , raw_user_meta_data := { full_name := none, role := none } }

/-- A signup whose metadata role string is not in the enumeration. -/
def invalidRoleUser : NewUser :=
  { id := 7, email := some "x@example.com"
  , raw_user_meta_data := { full_name := some "X", role := some "admin" } }

/-- Inverting a successful run of the trigger body: the inserted profile
is exactly the record built from the new user, for the role value the
cast produced. -/
lemma handle_new_user_ok_iff (u : NewUser) (pr : Profile) :
    handle_new_user u = Except.ok pr ↔
    ∃ r, castUserRole u.raw_user_meta_data.role = Except.ok r ∧
      pr = { id := u.id, email := u.email
           , full_name := some (u.raw_user_meta_data.full_name.getD "")
           , role := r.getD UserRole.buyer } := by
  unfold handle_new_user
  rcases hc : castUserRole u.raw_user_meta_data.role with e | r
  · simp
  · simp [eq_comm]

/-- C1: for every identity created through the identity provider,
immediately after the creation event exactly one profile row with that
identity's id exists; its role is buyer when the metadata has no role
key and the supplied value when it matches the enumeration; its
full_name is the supplied value when present and the empty string when
absent. -/
theorem profile_provisioned_once (db : DB) (u : NewUser) (db2 : DB)
    (hfresh : ∀ p ∈ db.profiles, p.id ≠ u.id)
    (hok : signup db u = Except.ok db2) :
    db2.profiles.countP (fun p => p.id == u.id) = 1 ∧
    ∀ p ∈ db2.profiles, p.id = u.id →
      (u.raw_user_meta_data.role = none → p.role = UserRole.buyer) ∧
      (∀ s r, u.raw_user_meta_data.role = some s → parseUserRole s = some r →
        p.role = r) ∧
      (∀ fn, u.raw_user_meta_data.full_name = some fn → p.full_name = some fn) ∧
      (u.raw_user_meta_data.full_name = none → p.full_name = some "") := by
  unfold signup at hok
  rcases hp : handle_new_user u with e | pr
  · rw [hp] at hok
    cases hok
  · rw [hp] at hok
    obtain ⟨r, hc, hpr⟩ := (handle_new_user_ok_iff u pr).mp hp
    cases hok
    subst hpr
    constructor
    · rw [List.countP_append]
      have h0 : db.profiles.countP (fun p => p.id == u.id) = 0 :=
        List.countP_eq_zero.mpr (fun p hpmem => by simpa using hfresh p hpmem)
      simp [h0]
    · intro p hpmem hpid
      rcases List.mem_append.mp hpmem with h1 | h2
      · exact absurd hpid (hfresh p h1)
      · have hpp : p = _ := List.mem_singleton.mp h2
        subst hpp
        refine ⟨?_, ?_, ?_, ?_⟩
        · intro hnone
          rw [hnone] at hc
          have : (Except.ok (none : Option UserRole) : Except String _) =
              Except.ok r := hc
          injection this with h
          rw [← h]
          rfl
        · intro s rr hs hparse
          rw [hs] at hc
          simp only [castUserRole, hparse] at hc
          injection hc with h
          rw [← h]
          rfl
        · intro fn hfn
          simp [hfn]
        · intro hnone
          simp [hnone]

/-- Witness for C1 at a concrete signup with metadata
full_name = "A", role = "seller" against an empty database. -/
theorem profile_provisioned_once_witness :
    (signupApply db0 sellerSignupUser).profiles.countP
      (fun p => p.id == sellerSignupUser.id) = 1 :=
  (profile_provisioned_once db0 sellerSignupUser (signupApply db0 sellerSignupUser)
    (by intro p hp; cases hp) rfl).1

/-- C5: a signup whose metadata role string does not match the
enumeration makes the role cast raise, the whole signup transaction
aborts, and the database — identity insert included — is unchanged. -/
theorem invalid_role_metadata_aborts_signup (db : DB) (u : NewUser) (s : String)
    (hs : u.raw_user_meta_data.role = some s) (hinv : parseUserRole s = none) :
    signup db u = Except.error "invalid input value for enum user_role" ∧
    signupApply db u = db := by
  have hh : handle_new_user u =
      Except.error "invalid input value for enum user_role" := by
    unfold handle_new_user
    rw [hs]
    simp [castUserRole, hinv]
  constructor
  · unfold signup
    rw [hh]
  · unfold signupApply signup
    rw [hh]

/-- Witness for C5 at the concrete invalid role string "admin". -/
theorem invalid_role_metadata_aborts_signup_witness :
    signup db0 invalidRoleUser =
      Except.error "invalid input value for enum user_role" ∧
    signupApply db0 invalidRoleUser = db0 :=
  invalid_role_metadata_aborts_signup db0 invalidRoleUser "admin" rfl (by decide)

/-- C6 counterexample: at the concrete signup whose metadata role is
"admin" (present but invalid), the trigger raises instead of producing
a profile with role buyer. -/
theorem invalid_role_not_coerced_to_buyer :
    handle_new_user invalidRoleUser =
      Except.error "invalid input value for enum user_role" ∧
    ¬ ∃ p : Profile, handle_new_user invalidRoleUser = Except.ok p ∧
        p.role = UserRole.buyer := by
  have h : handle_new_user invalidRoleUser =
      Except.error "invalid input value for enum user_role" := rfl
  refine ⟨h, ?_⟩
  rintro ⟨p, hp, -⟩
  rw [h] at hp
  cases hp

/-- C6 amended: the trigger coerces the optional metadata role field to
the enumerated type; the resulting profile role is buyer when the field
is absent, and when the field is present but invalid the coercion
raises and no profile results. -/
theorem role_buyer_when_absent_else_abort (u : NewUser) :
    (u.raw_user_meta_data.role = none →
      ∃ p, handle_new_user u = Except.ok p ∧ p.role = UserRole.buyer) ∧
    ∀ s, u.raw_user_meta_data.role = some s → parseUserRole s = none →
      handle_new_user u = Except.error "invalid input value for enum user_role" := by
  constructor
  · intro hnone
    have h : handle_new_user u = Except.ok
        { id := u.id, email := u.email
        , full_name := some (u.raw_user_meta_data.full_name.getD "")
        , role := UserRole.buyer } := by
      unfold handle_new_user
      rw [hnone]
      rfl
    exact ⟨_, h, rfl⟩
  · intro s hs hinv
    unfold handle_new_user
    rw [hs]
    simp [castUserRole, hinv]

/-- Witness for the amended C6: a signup with no role key yields a
buyer profile; the signup with role "admin" raises. -/
theorem role_buyer_when_absent_else_abort_witness :
    (∃ p, handle_new_user noMetaUser = Except.ok p ∧
      p.role = UserRole.buyer) ∧
    handle_new_user invalidRoleUser =
      Except.error "invalid input value for enum user_role" :=
  ⟨(role_buyer_when_absent_else_abort noMetaUser).1 rfl,
   (role_buyer_when_absent_else_abort invalidRoleUser).2 "admin" rfl (by decide)⟩

/-- A fixture product owned by seller 2. -/
def prodA : Product :=
  { id := 1, seller_id := 2, name := "Widget", description := none
  , price := 500, quantity := 3, category_id := none, image_url := none
  , is_active := true }

/-- A fixture profile for identity 2. -/
def profileA : Profile :=
  { id := 2, email := some "s@example.com", full_name := some "S"
  , role := UserRole.seller }

/-- A guarded per-row map leaves a row whose guard is false unchanged. -/
lemma getElem?_map_guard {α : Type} (l : List α) (g : α → Bool) (f : α → α)
    (i : Nat) (hi : i < l.length) (h : g l[i] = false) :
    (l.map (fun x => if g x then f x else x))[i]? = some l[i] := by
  rw [List.getElem?_map, List.getElem?_eq_getElem hi]
  simp [h]

/-- C2: an insert, update or delete on a products row succeeds only for
the requesting identity equal to the row's seller_id.  Any other
identity's update (the buyer's add-to-cart quantity update is the
instance cond := id match, f := set quantity) leaves the row unchanged,
a delete retains the row, and an insert of a row with a different
seller_id raises and changes nothing. -/
theorem product_mutation_owner_only (uid : Option Nat) (table : List Product)
    (cond : Product → Bool) (f : Product → Product) (q : Product)
    (i : Nat) (hi : i < table.length)
    (hrow : uid ≠ some table[i].seller_id)
    (hq : uid ≠ some q.seller_id) :
    (txApply table (productsUpdate uid table cond f))[i]? = some table[i] ∧
    table[i] ∈ productsDelete uid table cond ∧
    productsInsert uid table q =
      Except.error "new row violates row-level security policy for table products" := by
  have hpol : productsOwnerPolicy uid table[i] = false := by
    simp only [productsOwnerPolicy, beq_eq_false_iff_ne, ne_eq]
    exact hrow
  have hqpol : productsOwnerPolicy uid q = false := by
    simp only [productsOwnerPolicy, beq_eq_false_iff_ne, ne_eq]
    exact hq
  refine ⟨?_, ?_, ?_⟩
  · cases hall : table.all (fun p =>
        !(cond p && productsOwnerPolicy uid p) || productsOwnerPolicy uid (f p)) with
    | false =>
      simp only [productsUpdate, hall, Bool.false_eq_true, if_false, txApply]
      rw [List.getElem?_eq_getElem hi]
    | true =>
      simp only [productsUpdate, hall, if_true, txApply]
      exact getElem?_map_guard table
        (fun p => cond p && productsOwnerPolicy uid p) f i hi (by simp [hpol])
  · exact List.mem_filter.mpr ⟨List.getElem_mem hi, by simp [hpol]⟩
  · simp [productsInsert, hqpol]

/-- Witness for C2: identity 9 (not the seller, who is identity 2)
attempts the add-to-cart quantity update, a delete and an insert on
seller 2's product; the row survives and the insert raises. -/
theorem product_mutation_owner_only_witness :
    (txApply [prodA] (productsUpdate (some 9) [prodA] (fun p => p.id == 1)
        (fun p => { p with quantity := p.quantity - 1 })))[0]? = some prodA ∧
    prodA ∈ productsDelete (some 9) [prodA] (fun p => p.id == 1) ∧
    productsInsert (some 9) [prodA] prodA =
      Except.error "new row violates row-level security policy for table products" :=
  product_mutation_owner_only (some 9) [prodA] (fun p => p.id == 1)
    (fun p => { p with quantity := p.quantity - 1 }) prodA 0 (by decide)
    (by decide) (by decide)

/-- C3: a products row with is_active = true is returned by a select
for every requesting identity (anonymous included); a row with
is_active = false is returned exactly when the requesting identity is
the row's seller. -/
theorem product_select_visibility (uid : Option Nat) (table : List Product)
    (p : Product) (hmem : p ∈ table) :
    (p.is_active = true → p ∈ productsSelect uid table) ∧
    (p.is_active = false →
      (p ∈ productsSelect uid table ↔ uid = some p.seller_id)) := by
  constructor
  · intro ha
    exact List.mem_filter.mpr
      ⟨hmem, by simp [productsSelectAllowed, productsActivePolicy, ha]⟩
  · intro ha
    constructor
    · intro hsel
      have hallow := (List.mem_filter.mp hsel).2
      simpa [productsSelectAllowed, productsActivePolicy, productsOwnerPolicy, ha]
        using hallow
    · intro huid
      exact List.mem_filter.mpr
        ⟨hmem, by simp [productsSelectAllowed, productsActivePolicy,
          productsOwnerPolicy, ha, huid]⟩

/-- Witness for C3: the active fixture product is visible to an
anonymous select. -/
theorem product_select_visibility_witness :
    prodA ∈ productsSelect none [prodA] :=
  (product_select_visibility none [prodA] prodA (by simp)).1 rfl

/-- C4: a select, insert or update on a profiles row succeeds only for
the requesting identity equal to the row's id: any other identity's
select does not return the row, its update leaves the row unchanged,
and its insert of a row with a different id raises. -/
theorem profile_access_owner_only (uid : Option Nat) (table : List Profile)
    (cond : Profile → Bool) (f : Profile → Profile) (q : Profile)
    (i : Nat) (hi : i < table.length)
    (hrow : uid ≠ some table[i].id)
    (hq : uid ≠ some q.id) :
    table[i] ∉ profilesSelect uid table ∧
    (txApply table (profilesUpdate uid table cond f))[i]? = some table[i] ∧
    profilesInsert uid table q =
      Except.error "new row violates row-level security policy for table profiles" := by
  have hpol : profilesOwnerPolicy uid table[i] = false := by
    simp only [profilesOwnerPolicy, beq_eq_false_iff_ne, ne_eq]
    exact hrow
  have hqpol : profilesOwnerPolicy uid q = false := by
    simp only [profilesOwnerPolicy, beq_eq_false_iff_ne, ne_eq]
    exact hq
  refine ⟨?_, ?_, ?_⟩
  · intro hsel
    have hallow := (List.mem_filter.mp hsel).2
    rw [hpol] at hallow
    cases hallow
  · cases hall : table.all (fun p =>
        !(cond p && profilesOwnerPolicy uid p) || profilesOwnerPolicy uid (f p)) with
    | false =>
      simp only [profilesUpdate, hall, Bool.false_eq_true, if_false, txApply]
      rw [List.getElem?_eq_getElem hi]
    | true =>
      simp only [profilesUpdate, hall, if_true, txApply]
      exact getElem?_map_guard table
        (fun p => cond p && profilesOwnerPolicy uid p) f i hi (by simp [hpol])
  · simp [profilesInsert, hqpol]

/-- Witness for C4: identity 9 can neither see, update nor insert the
profile row of identity 2. -/
theorem profile_access_owner_only_witness :
    profileA ∉ profilesSelect (some 9) [profileA] ∧
    (txApply [profileA] (profilesUpdate (some 9) [profileA] (fun p => p.id == 2)
        (fun p => { p with role := UserRole.buyer })))[0]? = some profileA ∧
    profilesInsert (some 9) [profileA] profileA =
      Except.error "new row violates row-level security policy for table profiles" :=
  profile_access_owner_only (some 9) [profileA] (fun p => p.id == 2)
    (fun p => { p with role := UserRole.buyer }) profileA 0 (by decide)
    (by decide) (by decide)

/-- C7: when the image upload step fails, the failure is caught and the
product row is still inserted, with image_url = null; the submission
does not fail because of the upload error. -/
theorem upload_failure_product_still_inserted (uid : Nat)
    (formData : ProductFormData) (e : String) :
    ∃ row, handleSubmit (some uid) formData (some (Except.error e)) = some row ∧
      row.image_url = none := by
  refine ⟨_, rfl, rfl⟩

/-- A fixture add-product form with no category selected. -/
def sampleForm : ProductFormData :=
  { name := "Widget", description := "", price := 500, quantity := 3
  , category_id := "" }

/-- Witness for C7: a concrete failing upload still yields an insert
payload, with a null image_url. -/
theorem upload_failure_product_still_inserted_witness :
    ∃ row, handleSubmit (some 2) sampleForm (some (Except.error "network")) =
        some row ∧
      row.image_url = none :=
  upload_failure_product_still_inserted 2 sampleForm "network"

/-- C8: in a single add-to-cart call, no update is issued (and the
table is untouched) when the product is missing from the client cache
or its cached quantity is 0; when the cached quantity is at least 1 the
issued payload writes the cached quantity minus 1, which is never
negative. -/
theorem add_to_cart_client_guard (products : List Product) (productId : Nat)
    (table : List Product) :
    (products.find? (fun p => p.id == productId) = none →
      handleAddToCart products productId = none ∧
      addToCartEffect table productId (handleAddToCart products productId) = table) ∧
    ∀ product, products.find? (fun p => p.id == productId) = some product →
      (product.quantity = 0 →
        handleAddToCart products productId = none ∧
        addToCartEffect table productId (handleAddToCart products productId) = table) ∧
      (1 ≤ product.quantity →
        handleAddToCart products productId = some (product.quantity - 1) ∧
        0 ≤ product.quantity - 1) := by
  constructor
  · intro hf
    have h : handleAddToCart products productId = none := by
      unfold handleAddToCart
      rw [hf]
    exact ⟨h, by rw [h]; exact rfl⟩
  · intro product hf
    constructor
    · intro hq
      have h : handleAddToCart products productId = none := by
        unfold handleAddToCart
        rw [hf]
        simp [hq]
      exact ⟨h, by rw [h]; exact rfl⟩
    · intro hq
      have hne : (product.quantity == 0) = false := by
        simp only [beq_eq_false_iff_ne, ne_eq]
        omega
      constructor
      · unfold handleAddToCart
        rw [hf]
        simp [hne]
      · omega

/-- Witness for C8: identity-independent call on the fixture product
with cached quantity 3 writes quantity 2. -/
theorem add_to_cart_client_guard_witness :
    handleAddToCart [prodA] 1 = some (prodA.quantity - 1) ∧
    0 ≤ prodA.quantity - 1 :=
  ((add_to_cart_client_guard [prodA] 1 []).2 prodA (by decide)).2 (by decide)

/-- A fixture product with exactly one unit in stock. -/
def lastUnitProduct : Product :=
  { id := 4, seller_id := 2, name := "Last unit", description := none
  , price := 100, quantity := 1, category_id := none, image_url := none
  , is_active := true }

/-- C9, evaluated at the failing input: against a product with
quantity = 1, two add-to-cart purchases interleaved so that both
clients read the cached product list before either write lands each
issue an update payload — both are reported to the user as successes,
so the two concurrent purchases of the last unit both succeed,
contradicting the required at-most-one-success property. -/
theorem concurrent_last_unit_both_succeed :
    (concurrentAddToCart [lastUnitProduct] 4).1 = some 0 ∧
    (concurrentAddToCart [lastUnitProduct] 4).2.1 = some 0 ∧
    (concurrentAddToCart [lastUnitProduct] 4).2.2.map Product.quantity = [0] := by
  exact ⟨rfl, rfl, rfl⟩

/-- C10: an add-product submission with no category selected (empty
category field) inserts the product with category_id = null rather
than the empty string. -/
theorem empty_category_inserted_as_null (uid : Nat)
    (formData : ProductFormData) (imageFile : Option (Except String String)) :
    ∃ row, handleSubmit (some uid) { formData with category_id := "" } imageFile =
        some row ∧
      row.category_id = none := by
  refine ⟨_, rfl, ?_⟩
  simp

/-- Witness for C10: a concrete submission of the fixture form (whose
category field is already the empty string) carries category_id null. -/
theorem empty_category_inserted_as_null_witness :
    ∃ row, handleSubmit (some 2) { sampleForm with category_id := "" } none =
        some row ∧
      row.category_id = none :=
  empty_category_inserted_as_null 2 sampleForm none

end SourceWeave
